import Mathlib

/-!
Verification of the ai-web-chat-app backend against its natural-language
specification.  The Python source under `backend/` is shallowly embedded:
database rows become structures, each Flask handler becomes a pure function
from an explicit database state (plus request data) to an HTTP status and a
new state, and external services (password hashing, AWS calls, the
filesystem) are passed in as explicit function parameters or recorded as
effects in a trace.  All definitions are executable.
-/

namespace Backend

/-! ## String helpers

Python's `str` operations are modelled over the character list of the Lean
`String` (the byte-position based functions of core `String` are avoided so
that every definition evaluates by kernel reduction). -/

/-- Split a character list at every occurrence of `c` (Python
`s.split(c)`). -/
def splitOnChar (c : Char) : List Char → List (List Char)
  | [] => [[]]
  | x :: xs =>
      if x == c then [] :: splitOnChar c xs
      else
        match splitOnChar c xs with
        | [] => [[x]]
        | h :: t => (x :: h) :: t

/-- Python `s.strip()`: drop leading and trailing whitespace. -/
def strTrim (s : String) : String :=
  ⟨((s.data.dropWhile Char.isWhitespace).reverse.dropWhile Char.isWhitespace).reverse⟩

/-- Python `s.lower()` (ASCII case folding, which is all the backend feeds
it). -/
def strToLower (s : String) : String :=
  ⟨s.data.map Char.toLower⟩

/-- Python `c in s` for a single character. -/
def strContains (s : String) (c : Char) : Bool :=
  s.data.contains c

/-! ## Data model (`models.py`) -/

/-- Row of the `users` table (`models.py`, class `User`).  The password is
stored only as a hash; hashing itself (werkzeug) is modelled as an abstract
function parameter where needed. -/
structure User where
  id : Nat
  username : String
  email : String
  passwordHash : String
  lastLogin : Option Nat
  isActive : Bool
  isAdmin : Bool
deriving Repr, DecidableEq

/-- Row of the `signup_codes` table (`models.py`, class `SignupCode`).
Timestamps are modelled as natural numbers (`datetime` is totally ordered;
only comparisons matter). -/
structure SignupCode where
  id : Nat
  code : String
  expiresAt : Nat
  usedByUserId : Option Nat
deriving Repr, DecidableEq

/-- `SignupCode.is_valid` (`models.py` lines 63-65):
`used_by_user_id is None and expires_at > datetime.utcnow()`. -/
def SignupCode.is_valid (c : SignupCode) (now : Nat) : Bool :=
  c.usedByUserId.isNone && decide (now < c.expiresAt)

/-- Row of the `login_logs` table (`models.py`, class `LoginLog`); fields not
touched by the claims (ip, user agent, time) are omitted. -/
structure LoginLogRow where
  userId : Option Nat
  usernameAttempted : String
  success : Bool
  failureReason : Option String
deriving Repr, DecidableEq

/-- Row of the `search_logs` table (`models.py`, class `SearchLog`); fields not
touched by the claims (ip, user agent, response text) are omitted. -/
structure SearchLogRow where
  id : Nat
  userId : Nat
  searchType : String
  timestamp : Nat
deriving Repr, DecidableEq

/-! ## Password and email validation (`auth.py`) -/

/-- `re.search(r'[A-Za-z]', s)`: the pattern matches exactly the ASCII
letters, which is what `Char.isAlpha` tests. -/
def containsLetter (s : String) : Bool :=
  s.data.any fun c => c.isAlpha

/-- `re.search(r'\d', s)` restricted to ASCII digits (the claims only involve
ASCII input). -/
def containsDigit (s : String) : Bool :=
  s.data.any fun c => c.isDigit

/-- `validate_password` (`auth.py` lines 49-57): length, then letter, then
digit, each with its own message. -/
def validate_password (p : String) : Bool × String :=
  if p.length < 8 then (false, "Password must be at least 8 characters long")
  else if !(containsLetter p) then (false, "Password must contain at least one letter")
  else if !(containsDigit p) then (false, "Password must contain at least one number")
  else (true, "Password is valid")

/-- Characters allowed in the local part of the email regex
`[a-zA-Z0-9._%+-]`. -/
def isEmailLocalChar (c : Char) : Bool :=
  c.isAlphanum || c == '.' || c == '_' || c == '%' || c == '+' || c == '-'

/-- Characters allowed in the domain part of the email regex
`[a-zA-Z0-9.-]`. -/
def isEmailDomainChar (c : Char) : Bool :=
  c.isAlphanum || c == '.' || c == '-'

/-- The domain side of the regex: `[a-zA-Z0-9.-]+\.[a-zA-Z]\x7b2,\x7d`
anchored at both ends.  A match exists iff the string splits at some dot into
a non-empty domain-charset part and a trailing all-letter part of length at
least 2. -/
def domainMatches (d : List Char) : Bool :=
  (List.range d.length).any fun k =>
    ((d.drop k).head? == some '.') &&
    decide (0 < k) && (d.take k).all isEmailDomainChar &&
    decide (2 ≤ (d.drop (k+1)).length) && (d.drop (k+1)).all Char.isAlpha

/-- `validate_email` (`auth.py` lines 44-47): full match of
`^[a-zA-Z0-9._%+-]+@[a-zA-Z0-9.-]+\.[a-zA-Z]\x7b2,\x7d$`.  Neither character
class contains `@`, so a match has exactly one `@`. -/
def validate_email (s : String) : Bool :=
  match splitOnChar '@' s.data with
  | [localPart, domainPart] =>
      !localPart.isEmpty && localPart.all isEmailLocalChar &&
      domainMatches domainPart
  | _ => false

end Backend

namespace Backend

/-- A status is 400-class when it is in the 4xx range. -/
def is4xx (s : Nat) : Prop := 400 ≤ s ∧ s < 500

instance (s : Nat) : Decidable (is4xx s) := by
  unfold is4xx; infer_instance

end Backend

namespace Backend

/-! ## Admin user management (`admin.py`)

Each handler becomes a function from the `users` table (a list), the acting
admin's id (`current_user.id`) and the request data to an HTTP status and the
table after the request.  SQLAlchemy commit semantics: un-committed attribute
assignments on a fetched row are discarded when the handler returns without
`db.session.commit()` (the session is rolled back at request teardown), so
only the paths that reach `commit` change the returned table. -/

/-- `User.query.get(user_id)`. -/
def findUser (users : List User) (uid : Nat) : Option User :=
  users.find? fun u => u.id == uid

/-- `block_user` (`admin.py` lines 187-213).  `blockStatus` is
`data.get('block', True)`. -/
def block_user (users : List User) (actorId targetId : Nat) (blockStatus : Bool) :
    Nat × List User :=
  match findUser users targetId with
  | none => (404, users)
  | some _ =>
    if targetId == actorId then (400, users)
    else
      (200, users.map fun u => if u.id == targetId then { u with isActive := !blockStatus } else u)

/-- `delete_user` (`admin.py` lines 215-237). -/
def delete_user (users : List User) (actorId targetId : Nat) : Nat × List User :=
  match findUser users targetId with
  | none => (404, users)
  | some _ =>
    if targetId == actorId then (400, users)
    else (200, users.filter fun u => !(u.id == targetId))

/-- `remove_admin` (`admin.py` lines 259-281). -/
def remove_admin (users : List User) (actorId targetId : Nat) : Nat × List User :=
  match findUser users targetId with
  | none => (404, users)
  | some _ =>
    if targetId == actorId then (400, users)
    else
      (200, users.map fun u => if u.id == targetId then { u with isAdmin := false } else u)

/-- `make_admin` (`admin.py` lines 239-257): no self-check, promotes
unconditionally. -/
def make_admin (users : List User) (targetId : Nat) : Nat × List User :=
  match findUser users targetId with
  | none => (404, users)
  | some _ =>
    (200, users.map fun u => if u.id == targetId then { u with isAdmin := true } else u)

/-- JSON body of `PUT /api/admin/users/<id>` (`update_user`): each key is
optional; `bool(...)` coercion of the flag values is modelled by taking the
flags as `Bool`. -/
structure UpdatePayload where
  username : Option String
  email : Option String
  isActive : Option Bool
  isAdmin : Option Bool

/-- The `'username' in data` block of `update_user` (`admin.py` lines
91-106): trim, non-empty, length ≥ 3, uniqueness against other users; on
success the draft row carries the new username.  Every early exit in the
source is an HTTP 400, so an error is modelled as `Except.error ()`. -/
def usernameStep (users : List User) (targetId : Nat) (orig : String) (draft : User) :
    Option String → Except Unit User
  | none => .ok draft
  | some raw =>
    let u := strTrim raw
    if u == "" then .error ()
    else if u.length < 3 then .error ()
    else if !(u == orig) then
      match users.find? (fun v => v.username == u) with
      | some v => if !(v.id == targetId) then .error () else .ok { draft with username := u }
      | none => .ok { draft with username := u }
    else .ok draft

/-- The `'email' in data` block of `update_user` (`admin.py` lines 108-126):
trim+lower, non-empty, regex-valid, uniqueness against other users; every
early exit is an HTTP 400. -/
def emailStep (users : List User) (targetId : Nat) (origEmail : String) (draft : User) :
    Option String → Except Unit User
  | none => .ok draft
  | some raw =>
    let e := strToLower (strTrim raw)
    if e == "" then .error ()
    else if !(validate_email e) then .error ()
    else if !(e == origEmail) then
      match users.find? (fun v => v.email == e) with
      | some v => if !(v.id == targetId) then .error () else .ok { draft with email := e }
      | none => .ok { draft with email := e }
    else .ok draft

/-- The `'is_active' in data` block of `update_user` (`admin.py` lines
128-134): an admin may not deactivate themself (HTTP 400). -/
def activeStep (actorId targetId : Nat) (draft : User) : Option Bool → Except Unit User
  | none => .ok draft
  | some v =>
    if targetId == actorId && !v then .error ()
    else .ok { draft with isActive := v }

/-- The `'is_admin' in data` block of `update_user` (`admin.py` lines
136-141): an admin may not demote themself (HTTP 400). -/
def adminStep (actorId targetId : Nat) (draft : User) : Option Bool → Except Unit User
  | none => .ok draft
  | some v =>
    if targetId == actorId && !v then .error ()
    else .ok { draft with isAdmin := v }

/-- `update_user` (`admin.py` lines 73-153): fetch, then the four optional
field blocks in source order, each able to return a 400 early (before
`commit`, hence leaving the table unchanged), then commit the draft row. -/
def update_user (users : List User) (actorId targetId : Nat) (p : UpdatePayload) :
    Nat × List User :=
  match findUser users targetId with
  | none => (404, users)
  | some user0 =>
    match usernameStep users targetId user0.username user0 p.username with
    | .error _ => (400, users)
    | .ok d1 =>
      match emailStep users targetId user0.email d1 p.email with
      | .error _ => (400, users)
      | .ok d2 =>
        match activeStep actorId targetId d2 p.isActive with
        | .error _ => (400, users)
        | .ok d3 =>
          match adminStep actorId targetId d3 p.isAdmin with
          | .error _ => (400, users)
          | .ok d4 => (200, users.map fun u => if u.id == targetId then d4 else u)

end Backend

namespace Backend

/-! ## Authentication (`auth.py`) -/

/-- Database state seen by the auth endpoints: the `users` and `login_logs`
tables (plus `signup_codes` for registration). -/
structure AuthDb where
  users : List User
  loginLogs : List LoginLogRow
  codes : List SignupCode
deriving Repr, DecidableEq

/-- JSON body of `POST /api/auth/login` after `data.get(..., '')`. -/
structure LoginRequest where
  username : String
  password : String
deriving Repr, DecidableEq

/-- `log_login_attempt` (`auth.py` lines 30-42): append one `LoginLog` row
and commit. -/
def log_login_attempt (db : AuthDb) (username : String) (success : Bool)
    (userId : Option Nat) (failureReason : Option String) : AuthDb :=
  { db with loginLogs := db.loginLogs ++ [⟨userId, username, success, failureReason⟩] }

/-- `login` (`auth.py` lines 131-179).  `check` models werkzeug's
`check_password_hash (hash, password)`; `now` models `datetime.utcnow()`.
Returns the HTTP status and the database after the request. -/
def login (check : String → String → Bool) (now : Nat) (db : AuthDb)
    (req : LoginRequest) : Nat × AuthDb :=
  let username := strTrim req.username
  let password := req.password
  if username == "" || password == "" then (400, db)
  else
    match db.users.find? (fun u => u.username == username || u.email == username) with
    | none => (401, log_login_attempt db username false none (some "invalid_username"))
    | some u =>
      if !(check u.passwordHash password) then
        (401, log_login_attempt db username false (some u.id) (some "invalid_password"))
      else if !u.isActive then
        (401, log_login_attempt db username false (some u.id) (some "account_disabled"))
      else
        let db := { db with
          users := db.users.map fun v => if v.id == u.id then { v with lastLogin := some now } else v }
        (200, log_login_attempt db username true (some u.id) none)

/-- JSON body of `POST /api/auth/register` after `data.get(..., '')`. -/
structure RegRequest where
  username : String
  email : String
  password : String
  signupCode : String
deriving Repr, DecidableEq

/-- The id SQLAlchemy hands the freshly committed user row: one more than
the largest id in the table. -/
def nextUserId (users : List User) : Nat :=
  (users.map User.id).foldr max 0 + 1

/-- `register` (`auth.py` lines 59-129): field validation in source order,
then signup-code validity, then username/email uniqueness, then user
creation and consumption of the code.  Returns the HTTP status, the error or
success message, and the database after the request. -/
def register (hash : String → String) (now : Nat) (db : AuthDb) (r : RegRequest) :
    (Nat × String) × AuthDb :=
  let username := strTrim r.username
  let email := strToLower (strTrim r.email)
  let password := r.password
  let codeStr := strTrim r.signupCode
  if username == "" || email == "" || password == "" || codeStr == "" then
    ((400, "Username, email, password, and signup code are required"), db)
  else if username.length < 3 then
    ((400, "Username must be at least 3 characters long"), db)
  else if !(validate_email email) then
    ((400, "Invalid email format"), db)
  else if !(validate_password password).1 then
    ((400, (validate_password password).2), db)
  else
    match db.codes.find? (fun c => c.code == codeStr) with
    | none => ((400, "Invalid or expired signup code"), db)
    | some sc =>
      if !(sc.is_valid now) then ((400, "Invalid or expired signup code"), db)
      else if (db.users.find? (fun u => u.username == username)).isSome then
        ((400, "Username already exists"), db)
      else if (db.users.find? (fun u => u.email == email)).isSome then
        ((400, "Email already registered"), db)
      else
        let newId := nextUserId db.users
        let user : User :=
          { id := newId, username := username, email := email, passwordHash := hash password,
            lastLogin := none, isActive := true, isAdmin := false }
        ((201, "User registered successfully"),
         { db with
           users := db.users ++ [user],
           codes := db.codes.map fun c =>
             if c.code == codeStr then { c with usedByUserId := some newId } else c })

end Backend

/-! ## C4: login attempt logging -/

/-- C4 counterexample: a login call whose request fails field validation
(empty username) returns 400 and appends no `LoginLog` row at all, so it is
not the case that every call to the login endpoint appends exactly one
row. -/
theorem C4_counterexample :
    (Backend.login (fun h p => h == p) 0 ⟨[], [], []⟩ ⟨"", "x"⟩).2.loginLogs.length ≠
      (⟨[], [], []⟩ : Backend.AuthDb).loginLogs.length + 1 := by
  decide

/-- C4 (amended): every login call that passes request-field validation
(non-empty trimmed username and non-empty password) appends exactly one
`LoginLog` row: `success=false` with failure_reason `invalid_username`,
`invalid_password` or `account_disabled` for an unknown user, a wrong
password, or a disabled account respectively (status 401), and
`success=true` with the user's `last_login` updated on a successful login
(status 200). -/
theorem C4_login_logging (check : String → String → Bool) (now : Nat)
    (db : Backend.AuthDb) (req : Backend.LoginRequest)
    (h1 : Backend.strTrim req.username ≠ "") (h2 : req.password ≠ "") :
    (Backend.login check now db req).2.loginLogs.length = db.loginLogs.length + 1 ∧
    (match db.users.find? (fun u =>
        u.username == Backend.strTrim req.username ||
        u.email == Backend.strTrim req.username) with
     | none =>
         (Backend.login check now db req).1 = 401 ∧
         (Backend.login check now db req).2.loginLogs =
           db.loginLogs ++ [⟨none, Backend.strTrim req.username, false, some "invalid_username"⟩]
     | some u =>
         if check u.passwordHash req.password = false then
           (Backend.login check now db req).1 = 401 ∧
           (Backend.login check now db req).2.loginLogs =
             db.loginLogs ++ [⟨some u.id, Backend.strTrim req.username, false, some "invalid_password"⟩]
         else if u.isActive = false then
           (Backend.login check now db req).1 = 401 ∧
           (Backend.login check now db req).2.loginLogs =
             db.loginLogs ++ [⟨some u.id, Backend.strTrim req.username, false, some "account_disabled"⟩]
         else
           (Backend.login check now db req).1 = 200 ∧
           (Backend.login check now db req).2.loginLogs =
             db.loginLogs ++ [⟨some u.id, Backend.strTrim req.username, true, none⟩] ∧
           ∀ v ∈ (Backend.login check now db req).2.users,
             v.id = u.id → v.lastLogin = some now) := by
  have hg : (Backend.strTrim req.username == "" || req.password == "") = false := by
    simp [h1, h2]
  cases hf : db.users.find? (fun u =>
      u.username == Backend.strTrim req.username ||
      u.email == Backend.strTrim req.username) with
  | none =>
    simp only [Backend.login, hg, Bool.false_eq_true, if_false, hf,
      Backend.log_login_attempt]
    simp
  | some u =>
    by_cases hc : check u.passwordHash req.password = false
    · simp only [Backend.login, hg, Bool.false_eq_true, if_false, hf,
        Backend.log_login_attempt, hc]
      simp [hc]
    · have hc' : check u.passwordHash req.password = true := by
        revert hc; cases check u.passwordHash req.password <;> simp
      by_cases ha : u.isActive = false
      · simp only [Backend.login, hg, Bool.false_eq_true, if_false, hf,
          Backend.log_login_attempt, hc', ha]
        simp [hc, ha]
      · have ha' : u.isActive = true := by
          revert ha; cases u.isActive <;> simp
        simp only [Backend.login, hg, Bool.false_eq_true, if_false, hf,
          Backend.log_login_attempt, hc', ha']
        refine ⟨by simp, ?_⟩
        simp only [if_neg (by simp : ¬ (true = false))]
        refine ⟨rfl, by simp, ?_⟩
        intro v hv hid
        rcases List.mem_map.mp hv with ⟨w, hw, rfl⟩
        by_cases hwid : (w.id == u.id) = true
        · simp [hwid]
        · rw [if_neg hwid] at hid ⊢
          exact absurd hid (by simpa using hwid)

/-- Witness for C4 at a successful concrete login: one row is appended. -/
theorem C4_login_logging_witness :
    (Backend.login (fun h p => h == p) 5
        ⟨[⟨1, "alice", "a@x.io", "pw1", none, true, false⟩], [], []⟩
        ⟨"alice", "pw1"⟩).2.loginLogs.length =
      (⟨[⟨1, "alice", "a@x.io", "pw1", none, true, false⟩], [], []⟩ :
        Backend.AuthDb).loginLogs.length + 1 :=
  (C4_login_logging (fun h p => h == p) 5
    ⟨[⟨1, "alice", "a@x.io", "pw1", none, true, false⟩], [], []⟩
    ⟨"alice", "pw1"⟩ (by decide) (by decide)).1

namespace Backend

/-- A registration that returned 201 went through the final branch: the code
lookup succeeded, the code was valid, and the codes table was rewritten with
the consuming user's id on the presented code. -/
theorem register_succ {hash : String → String} {now : Nat} {db : AuthDb} {r : RegRequest}
    (h : (register hash now db r).1.1 = 201) :
    ∃ sc, db.codes.find? (fun c => c.code == strTrim r.signupCode) = some sc ∧
      sc.is_valid now = true ∧
      (register hash now db r).2.codes = db.codes.map (fun c =>
        if c.code == strTrim r.signupCode
        then { c with usedByUserId := some (nextUserId db.users) } else c) := by
  rcases hr : register hash now db r with ⟨⟨st, msg⟩, db1⟩
  rw [hr] at h
  have hst : st = 201 := h
  simp only [register] at hr
  repeat' split at hr
  all_goals try
    exact absurd (show (400 : Nat) = st from congrArg (fun p => p.1.1) hr) (by omega)
  rename_i sc hfind hv6 hv7 hv8
  have hval : sc.is_valid now = true := by
    revert hv6
    cases sc.is_valid now <;> simp
  exact ⟨sc, hfind, hval, (congrArg (fun p => p.2.codes) hr).symm⟩

/-- Whatever branch `register` takes, the codes table is either untouched or
rewritten by marking the presented code as used. -/
theorem register_codes (hash : String → String) (now : Nat) (db : AuthDb) (r : RegRequest) :
    (register hash now db r).2.codes = db.codes ∨
    (register hash now db r).2.codes = db.codes.map (fun c =>
      if c.code == strTrim r.signupCode
      then { c with usedByUserId := some (nextUserId db.users) } else c) := by
  rcases hr : register hash now db r with ⟨⟨st, msg⟩, db1⟩
  simp only [register] at hr
  repeat' split at hr
  all_goals first
  | exact Or.inl (congrArg (fun p => p.2.codes) hr).symm
  | exact Or.inr (congrArg (fun p => p.2.codes) hr).symm

/-- Every code with the given code string is marked used in `db`. -/
def codeConsumed (db : AuthDb) (s : String) : Prop :=
  ∀ c ∈ db.codes, c.code = s → c.usedByUserId.isSome = true

end Backend

/-! ## C2: signup codes are single-use -/

/-- C2: a signup code is valid exactly when it is unused and its expiry is in
the future; a successful registration marks the presented code used;
consumption is preserved by any later registration; and once every code with
the presented string is consumed, registration presenting it can never
return 201 again — when the request passes the field validations it fails
with exactly the `Invalid or expired signup code` error and leaves the
database unchanged. -/
theorem C2_signup_code_single_use :
    (∀ (sc : Backend.SignupCode) (t : Nat),
        sc.is_valid t = true ↔ (sc.usedByUserId = none ∧ t < sc.expiresAt))
    ∧ (∀ (hash : String → String) (now : Nat) (db : Backend.AuthDb) (r : Backend.RegRequest),
        (Backend.register hash now db r).1.1 = 201 →
          Backend.codeConsumed (Backend.register hash now db r).2 (Backend.strTrim r.signupCode))
    ∧ (∀ (hash : String → String) (now : Nat) (db : Backend.AuthDb) (r : Backend.RegRequest)
        (s : String), Backend.codeConsumed db s →
          Backend.codeConsumed (Backend.register hash now db r).2 s)
    ∧ (∀ (hash : String → String) (now : Nat) (db : Backend.AuthDb) (r : Backend.RegRequest),
        Backend.codeConsumed db (Backend.strTrim r.signupCode) →
          (Backend.register hash now db r).1.1 ≠ 201)
    ∧ (∀ (hash : String → String) (now : Nat) (db : Backend.AuthDb) (r : Backend.RegRequest),
        Backend.codeConsumed db (Backend.strTrim r.signupCode) →
          Backend.strTrim r.username ≠ "" →
          Backend.strToLower (Backend.strTrim r.email) ≠ "" →
          r.password ≠ "" →
          Backend.strTrim r.signupCode ≠ "" →
          ¬ (Backend.strTrim r.username).length < 3 →
          Backend.validate_email (Backend.strToLower (Backend.strTrim r.email)) = true →
          (Backend.validate_password r.password).1 = true →
          Backend.register hash now db r = ((400, "Invalid or expired signup code"), db)) := by
  refine ⟨?_, ?_, ?_, ?_, ?_⟩
  · intro sc t
    unfold Backend.SignupCode.is_valid
    cases h : sc.usedByUserId <;> simp [h, Option.isNone]
  · intro hash now db r hsucc
    rcases Backend.register_succ hsucc with ⟨sc, hfind, hvalid, hcodes⟩
    intro c hc hcode
    rw [hcodes] at hc
    rcases List.mem_map.mp hc with ⟨w, hw, rfl⟩
    by_cases hwc : (w.code == Backend.strTrim r.signupCode) = true
    · simp [hwc]
    · rw [if_neg hwc] at hcode ⊢
      exact absurd hcode (by simpa using hwc)
  · intro hash now db r s hcons
    rcases Backend.register_codes hash now db r with h | h
    · rw [Backend.codeConsumed, h]
      exact hcons
    · intro c hc hcode
      rw [h] at hc
      rcases List.mem_map.mp hc with ⟨w, hw, rfl⟩
      by_cases hwc : (w.code == Backend.strTrim r.signupCode) = true
      · simp [hwc]
      · rw [if_neg hwc] at hcode ⊢
        exact hcons w hw hcode
  · intro hash now db r hcons hsucc
    rcases Backend.register_succ hsucc with ⟨sc, hfind, hvalid, -⟩
    have hmem : sc ∈ db.codes := List.mem_of_find?_eq_some hfind
    have hpred := List.find?_some hfind
    have hused := hcons sc hmem (by simpa using hpred)
    rw [Backend.SignupCode.is_valid] at hvalid
    rcases Option.isSome_iff_exists.mp hused with ⟨uid, huid⟩
    simp [huid, Option.isNone] at hvalid
  · intro hash now db r hcons hu he hp hs hlen hem hpw
    have hg : (Backend.strTrim r.username == "" || Backend.strToLower (Backend.strTrim r.email) == ""
        || r.password == "" || Backend.strTrim r.signupCode == "") = false := by
      simp [hu, he, hp, hs]
    cases hf : db.codes.find? (fun c => c.code == Backend.strTrim r.signupCode) with
    | none =>
      simp only [Backend.register, hg, Bool.false_eq_true, if_false, if_neg hlen, hem,
        Bool.not_true, hpw, hf]
    | some sc =>
      have hmem : sc ∈ db.codes := List.mem_of_find?_eq_some hf
      have hpred := List.find?_some hf
      have hused := hcons sc hmem (by simpa using hpred)
      have hinvalid : sc.is_valid now = false := by
        rw [Backend.SignupCode.is_valid]
        rcases Option.isSome_iff_exists.mp hused with ⟨uid, huid⟩
        simp [huid, Option.isNone]
      simp only [Backend.register, hg, Bool.false_eq_true, if_false, if_neg hlen, hem,
        Bool.not_true, hpw, hf, hinvalid, Bool.not_false, if_true]

/-- Witness for C2's final conjunct: on a table whose only code `"c0"` is
already consumed by user 7, a well-formed registration presenting `"c0"` is
rejected with the invalid-or-expired error and the database is unchanged. -/
theorem C2_signup_code_single_use_witness :
    Backend.register (fun p => p) 10
        ⟨[], [], [⟨1, "c0", 100, some 7⟩]⟩
        ⟨"bob", "b@x.io", "abc12345", "c0"⟩ =
      ((400, "Invalid or expired signup code"), ⟨[], [], [⟨1, "c0", 100, some 7⟩]⟩) :=
  C2_signup_code_single_use.2.2.2.2 (fun p => p) 10
    ⟨[], [], [⟨1, "c0", 100, some 7⟩]⟩ ⟨"bob", "b@x.io", "abc12345", "c0"⟩
    (by intro c hc hcode; simp at hc; simp [hc])
    (by decide) (by decide) (by decide) (by decide) (by decide) (by decide) (by decide)

namespace Backend

/-- `reset_user_password` (`admin.py` lines 155-185).  `newPassword` is
`data.get('new_password')` (with `none` also covering an absent body);
`generated` models `secrets.token_urlsafe(12)`, substituted when the given
password is missing or empty (`if not new_password`).  The only strength
check is `len(new_password) < 8`. -/
def reset_user_password (hash : String → String) (users : List User) (targetId : Nat)
    (newPassword : Option String) (generated : String) : Nat × List User :=
  match findUser users targetId with
  | none => (404, users)
  | some _ =>
    let pw := match newPassword with
      | some p => if p == "" then generated else p
      | none => generated
    if pw.length < 8 then (400, users)
    else
      (200, users.map fun u => if u.id == targetId then { u with passwordHash := hash pw } else u)

end Backend

/-! ## C10: admin password reset skips the letter/digit policy -/

/-- C10: the admin reset-password endpoint accepts any supplied password of
length at least 8 — it never consults `validate_password` — so `"12345678"`
(all digits) resets the target's hash with status 200, even though
`validate_password` (the check used by registration and change-password)
rejects `"12345678"` for lacking a letter; and any password shorter than 8 is
rejected with 400. -/
theorem C10_reset_password_length_only (hash : String → String) (users : List Backend.User)
    (targetId : Nat) (p g : String) (u : Backend.User)
    (hfound : Backend.findUser users targetId = some u)
    (hlen : 8 ≤ p.length) (hne : p ≠ "") :
    ((Backend.reset_user_password hash users targetId (some p) g).1 = 200 ∧
      ∀ v ∈ (Backend.reset_user_password hash users targetId (some p) g).2,
        v.id = targetId → v.passwordHash = hash p)
    ∧ (Backend.validate_password "12345678").1 = false
    ∧ (∀ q g2, q.length < 8 → q ≠ "" →
        Backend.reset_user_password hash users targetId (some q) g2 = (400, users)) := by
  refine ⟨?_, by decide, ?_⟩
  · have hp : (p == "") = false := by simp [hne]
    simp only [Backend.reset_user_password, hfound, hp, Bool.false_eq_true, if_false,
      if_neg (by omega : ¬ p.length < 8)]
    refine ⟨by simp, ?_⟩
    intro v hv hid
    rcases List.mem_map.mp hv with ⟨w, hw, rfl⟩
    by_cases hwid : (w.id == targetId) = true
    · simp [hwid]
    · rw [if_neg hwid] at hid ⊢
      exact absurd hid (by simpa using hwid)
  · intro q g2 hq hqne
    have hp : (q == "") = false := by simp [hqne]
    simp only [Backend.reset_user_password, hfound, hp, Bool.false_eq_true, if_false,
      if_pos hq]

/-- Witness for C10: resetting user 2's password to the all-digit
`"12345678"` succeeds. -/
theorem C10_reset_password_length_only_witness :
    ((Backend.reset_user_password (fun p => p)
        [⟨2, "bob", "b@x.io", "old", none, true, false⟩] 2 (some "12345678") "gen").1 = 200 ∧
      ∀ v ∈ (Backend.reset_user_password (fun p => p)
        [⟨2, "bob", "b@x.io", "old", none, true, false⟩] 2 (some "12345678") "gen").2,
        v.id = 2 → v.passwordHash = "12345678")
    ∧ (Backend.validate_password "12345678").1 = false
    ∧ (∀ q g2, q.length < 8 → q ≠ "" →
        Backend.reset_user_password (fun p => p)
          [⟨2, "bob", "b@x.io", "old", none, true, false⟩] 2 (some q) g2 =
          (400, [⟨2, "bob", "b@x.io", "old", none, true, false⟩])) :=
  C10_reset_password_length_only (fun p => p)
    [⟨2, "bob", "b@x.io", "old", none, true, false⟩] 2 "12345678" "gen"
    ⟨2, "bob", "b@x.io", "old", none, true, false⟩ (by decide) (by decide) (by decide)

namespace Backend

/-! ## Search-log listing (`logs.py`) -/

/-- Insert into a timestamp-descending list, after any earlier entries with a
greater-or-equal timestamp (models the database `ORDER BY timestamp DESC`). -/
def insertDesc (x : SearchLogRow) : List SearchLogRow → List SearchLogRow
  | [] => [x]
  | y :: ys => if x.timestamp ≤ y.timestamp then y :: insertDesc x ys else x :: y :: ys

/-- Sort rows by timestamp, newest first. -/
def sortDesc (l : List SearchLogRow) : List SearchLogRow :=
  l.foldr insertDesc []

/-- The `pagination` object of the JSON reply of `get_search_logs`. -/
structure PageMeta where
  page : Nat
  perPage : Nat
  total : Nat
  pages : Nat
  hasNext : Bool
  hasPrev : Bool
deriving Repr, DecidableEq

/-- `get_search_logs` (`logs.py` lines 49-87): clamp
`per_page = min(per_page, 100)`, filter to the requesting user (and the
optional type filter), order newest-first, and paginate with
flask-sqlalchemy semantics: the page's items are rows
`(page-1)*per_page .. page*per_page`, `pages = ceil(total/per_page)`,
`has_next = page < pages`, `has_prev = page > 1`. -/
def get_search_logs (logs : List SearchLogRow) (userId : Nat) (typeFilter : Option String)
    (page perPageReq : Nat) : List SearchLogRow × PageMeta :=
  let perPage := min perPageReq 100
  let rows := logs.filter fun r => r.userId == userId
  let rows := match typeFilter with
    | none => rows
    | some t => rows.filter fun r => r.searchType == t
  let rows := sortDesc rows
  let total := rows.length
  let pages := (total + perPage - 1) / perPage
  let items := (rows.drop ((page - 1) * perPage)).take perPage
  (items, ⟨page, perPage, total, pages, decide (page < pages), decide (1 < page)⟩)

end Backend

/-! ## C9: log pagination -/

/-- C9: the requested `per_page` is always clamped to at most 100 (so
`per_page=500` behaves as 100), and on a store of 25 items for the user,
page 2 at `per_page=10` returns items 11 through 20 newest-first with
`has_next = true` and `has_prev = true` (and `total=25`, `pages=3`). -/
theorem C9_pagination :
    (∀ (logs : List Backend.SearchLogRow) (uid : Nat) (tf : Option String) (page req : Nat),
        (Backend.get_search_logs logs uid tf page req).2.perPage = min req 100 ∧
        (Backend.get_search_logs logs uid tf page req).2.perPage ≤ 100)
    ∧ (Backend.get_search_logs ((List.range 25).map fun i => ⟨i, 1, "chat", i⟩)
        1 none 1 500).2.perPage = 100
    ∧ Backend.get_search_logs ((List.range 25).map fun i => ⟨i, 1, "chat", i⟩) 1 none 2 10 =
        ([⟨14, 1, "chat", 14⟩, ⟨13, 1, "chat", 13⟩, ⟨12, 1, "chat", 12⟩, ⟨11, 1, "chat", 11⟩,
          ⟨10, 1, "chat", 10⟩, ⟨9, 1, "chat", 9⟩, ⟨8, 1, "chat", 8⟩, ⟨7, 1, "chat", 7⟩,
          ⟨6, 1, "chat", 6⟩, ⟨5, 1, "chat", 5⟩],
         ⟨2, 10, 25, 3, true, true⟩) := by
  refine ⟨?_, by decide, by decide⟩
  intro logs uid tf page req
  refine ⟨by simp [Backend.get_search_logs], ?_⟩
  have h : (Backend.get_search_logs logs uid tf page req).2.perPage = min req 100 := by
    simp [Backend.get_search_logs]
  rw [h]
  omega

namespace Backend

/-! ## Upload configuration (`config.py`) and the document pipeline (`app.py`)

The two upload handlers are embedded as pure functions over an explicit
environment of external operations (filesystem reads, the model invocation
adapter, the AWS clients).  Calls that the Python code lets raise are
modelled as `Except`; `invoke_llama` and the image OCR pipeline catch all
their exceptions internally and therefore return an `InvokeResult` directly.
Each external call performed is recorded in an effect trace (`user_action`
logging, which no claim touches, is elided). -/

/-- `Config.ALLOWED_EXTENSIONS` (`config.py` line 32).  Note: `md` is not a
member. -/
def ALLOWED_EXTENSIONS : List String :=
  ["txt", "pdf", "png", "jpg", "jpeg", "gif", "doc", "docx"]

/-- `filename.rsplit('.', 1)[1].lower()`: the part after the last dot,
lowercased. -/
def fileExtension (filename : String) : String :=
  ⟨((splitOnChar '.' filename.data).getLastD []).map Char.toLower⟩

/-- `Config.allowed_file` (`config.py` lines 44-47). -/
def allowed_file (filename : String) : Bool :=
  strContains filename '.' && ALLOWED_EXTENSIONS.contains (fileExtension filename)

/-- `os.path.splitext(filename)[1].lower()` for the filenames that pass
`allowed_file` (which all carry a normal dot-extension): the last
dot-component with its leading dot kept. -/
def dispatchExt (filename : String) : String :=
  if strContains filename '.' then "." ++ fileExtension filename else ""

/-- The normalized reply of the model invocation adapter and of the handlers:
a `{'response': ...}` or `{'error': ...}` JSON object. -/
inductive InvokeResult where
  | response (text : String)
  | error (msg : String)
deriving Repr, DecidableEq

/-- External calls a handler can perform, as recorded in its trace. -/
inductive Effect where
  | fileSave (name : String)
  | fileRead (name : String)
  | ocrImage (name : String)
  | s3Upload (name : String)
  | textractStart
  | textractPoll
  | llamaCall (prompt : String) (systemPrompt : String)
  | logSearch
  | fileDelete (name : String)
deriving Repr, DecidableEq

/-- Outcomes of the external operations during one request.  `Except.error`
models the call raising an exception (reaching the handler's `except`
clause); operations whose Python wrappers catch internally (`invoke_llama`,
`analyze_image_with_vision_and_ocr`, the DOCX/DOC extraction blocks) produce
in-band values. -/
structure DocEnv where
  readFile : String → Except String String
  llama : String → String → InvokeResult
  ocr : String → InvokeResult
  s3Upload : Except String Unit
  textractStart : Except String String
  textractWait : Except String Unit
  textractPages : Except String (List String)
  docxExtract : Except String String
  antiword : Bool
  catdoc : Bool
  docExtract : Except String String

/-- The configuration the document path reads (`config.py` line 39). -/
structure DocConfig where
  textractS3Bucket : String

/-- The PDF-without-bucket error (`app.py` lines 430-435). -/
def pdfBucketMsg : String :=
  "PDF OCR requires configuring TEXTRACT_S3_BUCKET in backend .env. Provide an S3 bucket and permissions for Textract."

/-- The unsupported-extension error of the dispatcher's final arm
(`app.py` lines 509-515). -/
def unsupportedMsg : String :=
  "Unsupported file type for OCR in this setup. Use PNG/JPG for scans, TXT/MD for text, DOCX for Word docs. PDF OCR requires S3+Textract (async)."

/-- The fixed analysis prompt prefix used by the txt/docx/doc branches. -/
def docPrompt : String :=
  "Please analyze the following document and provide a comprehensive summary, key points, and insights:\n\n"

/-- The DOC-tools-missing error (`app.py` lines 484-492). -/
def docMissingMsg (antiword catdoc : Bool) : String :=
  "DOC extraction prerequisites missing: " ++
    String.intercalate ", "
      ((if antiword then [] else ["antiword"]) ++ (if catdoc then [] else ["catdoc"])) ++
    ". Install one of them (e.g., brew install antiword) and retry."

/-- Per-page markers and concatenation of the Textract pages
(`app.py` line 446). -/
def combinePages (pages : List String) : String :=
  String.intercalate "\n\n"
    (pages.enum.map fun p => "[Page " ++ toString (p.1 + 1) ++ "]\n" ++ p.2)

/-- The PDF analysis prompt (`app.py` lines 447-449). -/
def pdfPrompt (combined : String) : String :=
  "Analyze this PDF content. Provide a concise summary, key points, and any action items.\n\n" ++ combined

/-- The `try` block of `document_analyze` (`app.py` lines 419-515): the
extension dispatch.  Returns the effects performed and either the in-band
result or the exception that escaped to the handler's `except` clause. -/
def tryBlock (cfg : DocConfig) (env : DocEnv) (filename ext : String) :
    List Effect × Except String InvokeResult :=
  if ext == ".png" || ext == ".jpg" || ext == ".jpeg" || ext == ".tif" || ext == ".tiff" then
    ([.ocrImage filename], .ok (env.ocr filename))
  else if ext == ".pdf" then
    if cfg.textractS3Bucket == "" then ([], .ok (.error pdfBucketMsg))
    else
      match env.s3Upload with
      | .error e => ([.s3Upload filename], .error e)
      | .ok _ =>
        match env.textractStart with
        | .error e => ([.s3Upload filename, .textractStart], .error e)
        | .ok _ =>
          match env.textractWait with
          | .error e => ([.s3Upload filename, .textractStart, .textractPoll], .error e)
          | .ok _ =>
            match env.textractPages with
            | .error e => ([.s3Upload filename, .textractStart, .textractPoll], .error e)
            | .ok pages =>
              let prompt := pdfPrompt (combinePages pages)
              ([.s3Upload filename, .textractStart, .textractPoll,
                .llamaCall prompt "You are an expert document analyst."],
               .ok (env.llama prompt "You are an expert document analyst."))
  else if ext == ".txt" || ext == ".md" then
    match env.readFile filename with
    | .error e => ([.fileRead filename], .error e)
    | .ok content =>
      let prompt := docPrompt ++ content
      ([.fileRead filename, .llamaCall prompt "You are an expert document analyzer."],
       .ok (env.llama prompt "You are an expert document analyzer."))
  else if ext == ".docx" then
    match env.docxExtract with
    | .error e => ([], .ok (.error ("Failed to read DOCX: " ++ e)))
    | .ok content =>
      if content == "" then ([], .ok (.error "DOCX contains no readable text."))
      else
        let prompt := docPrompt ++ content
        ([.llamaCall prompt "You are an expert document analyzer."],
         .ok (env.llama prompt "You are an expert document analyzer."))
  else if ext == ".doc" then
    if !(env.antiword || env.catdoc) then
      ([], .ok (.error (docMissingMsg env.antiword env.catdoc)))
    else
      match env.docExtract with
      | .error e => ([], .ok (.error ("Failed to read DOC: " ++ e)))
      | .ok content =>
        if content == "" then ([], .ok (.error "DOC contains no readable text."))
        else
          let prompt := docPrompt ++ content
          ([.llamaCall prompt "You are an expert document analyzer."],
           .ok (env.llama prompt "You are an expert document analyzer."))
  else ([], .ok (.error unsupportedMsg))

/-- `document_analyze` (`app.py` lines 394-531).  After the gate checks and
the file save, the try-block result is either returned with
`jsonify(result)` — HTTP 200 whatever the dict holds — after the SearchLog
write and the `os.remove` cleanup, or, when an exception escaped, turned
into a 500 with no cleanup (`except` clause, lines 527-529). -/
def document_analyze (cfg : DocConfig) (env : DocEnv) (hasFile : Bool) (filename : String) :
    (Nat × InvokeResult) × List Effect :=
  if !hasFile then ((400, .error "No file uploaded"), [])
  else if filename == "" then ((400, .error "No file selected"), [])
  else if allowed_file filename then
    match tryBlock cfg env filename (dispatchExt filename) with
    | (effs, .ok result) =>
        ((200, result), Effect.fileSave filename :: effs ++ [.logSearch, .fileDelete filename])
    | (effs, .error e) =>
        ((500, .error ("Error processing document: " ++ e)), Effect.fileSave filename :: effs)
  else ((400, .error "Invalid file type"), [])

/-- `analyze_image` (`app.py` lines 589-631): same gates, then the
internally-catching OCR pipeline, SearchLog write, cleanup, HTTP 200. -/
def analyze_image (env : DocEnv) (hasFile : Bool) (filename : String) :
    (Nat × InvokeResult) × List Effect :=
  if !hasFile then ((400, .error "No image uploaded"), [])
  else if filename == "" then ((400, .error "No file selected"), [])
  else if allowed_file filename then
    ((200, env.ocr filename),
     [.fileSave filename, .ocrImage filename, .logSearch, .fileDelete filename])
  else ((400, .error "Invalid file type"), [])

end Backend

/-- A fully concrete environment in which every external call succeeds. -/
def envOk : Backend.DocEnv :=
  { readFile := fun _ => .ok "hello"
    llama := fun p _ => .response p
    ocr := fun _ => .response "ocr summary"
    s3Upload := .ok ()
    textractStart := .ok "job1"
    textractWait := .ok ()
    textractPages := .ok ["page text"]
    docxExtract := .ok "docx text"
    antiword := false
    catdoc := false
    docExtract := .ok "doc text" }

/-- Like `envOk` but the S3 upload raises. -/
def envS3fail : Backend.DocEnv :=
  { envOk with s3Upload := .error "boom" }

/-- Like `envOk` but reading the saved file raises. -/
def envReadFail : Backend.DocEnv :=
  { envOk with readFile := fun _ => .error "boom" }

/-- Gate lemma: with a file present, a non-empty allowed filename, the
handler wraps the try-block result. -/
theorem docAnalyze_allowed (cfg : Backend.DocConfig) (env : Backend.DocEnv) (filename : String)
    (hne : (filename == "") = false) (hal : Backend.allowed_file filename = true) :
    Backend.document_analyze cfg env true filename =
      (match Backend.tryBlock cfg env filename (Backend.dispatchExt filename) with
       | (effs, .ok result) =>
           ((200, result),
            Backend.Effect.fileSave filename :: effs ++ [.logSearch, .fileDelete filename])
       | (effs, .error e) =>
           ((500, .error ("Error processing document: " ++ e)),
            Backend.Effect.fileSave filename :: effs)) := by
  simp only [Backend.document_analyze, Bool.not_true, Bool.false_eq_true, if_false, hne, hal,
    if_true]

/-- Gate lemma: a disallowed extension is rejected before any effect. -/
theorem docAnalyze_reject (cfg : Backend.DocConfig) (env : Backend.DocEnv) (filename : String)
    (hne : (filename == "") = false) (hal : Backend.allowed_file filename = false) :
    Backend.document_analyze cfg env true filename = ((400, .error "Invalid file type"), []) := by
  simp only [Backend.document_analyze, Bool.not_true, Bool.false_eq_true, if_false, hne, hal,
    if_true]

/-- A filename whose dispatch extension is non-empty is itself non-empty. -/
theorem dispatchExt_ne_empty {filename e : String}
    (h : Backend.dispatchExt filename = e) (hne : e ≠ "") : (filename == "") = false := by
  by_cases hb : (filename == "") = true
  · have hfeq : filename = "" := by simpa using hb
    subst hfeq
    rw [show Backend.dispatchExt "" = "" from by decide] at h
    exact absurd h.symm hne
  · simpa using hb

/-- A filename whose rsplit extension is non-empty is itself non-empty. -/
theorem fileExtension_ne_empty {filename e : String}
    (h : Backend.fileExtension filename = e) (hne : e ≠ "") : (filename == "") = false := by
  by_cases hb : (filename == "") = true
  · have hfeq : filename = "" := by simpa using hb
    subst hfeq
    rw [show Backend.fileExtension "" = "" from by decide] at h
    exact absurd h.symm hne
  · simpa using hb

/-- The txt branch of the dispatch with a successful read. -/
theorem tryBlock_txt (cfg : Backend.DocConfig) (env : Backend.DocEnv) (filename content : String)
    (h : env.readFile filename = .ok content) :
    Backend.tryBlock cfg env filename ".txt" =
      ([.fileRead filename,
        .llamaCall (Backend.docPrompt ++ content) "You are an expert document analyzer."],
       .ok (env.llama (Backend.docPrompt ++ content) "You are an expert document analyzer.")) := by
  simp [Backend.tryBlock, h]

/-- The final arm of the dispatch for an allowed but unhandled extension. -/
theorem tryBlock_gif (cfg : Backend.DocConfig) (env : Backend.DocEnv) (filename : String) :
    Backend.tryBlock cfg env filename ".gif" = ([], .ok (.error Backend.unsupportedMsg)) := by
  simp [Backend.tryBlock]

/-- The PDF branch with no configured bucket stops before any AWS call. -/
theorem tryBlock_pdf_no_bucket (cfg : Backend.DocConfig) (env : Backend.DocEnv)
    (filename : String) (hb : cfg.textractS3Bucket = "") :
    Backend.tryBlock cfg env filename ".pdf" = ([], .ok (.error Backend.pdfBucketMsg)) := by
  simp [Backend.tryBlock, hb]

/-! ## C5: document dispatch by extension -/

/-- C5 counterexample: an uploaded `.md` file is rejected by
`Config.allowed_file` (`md` is missing from `ALLOWED_EXTENSIONS`) with a 400
`Invalid file type` before any read or dispatch, contradicting the claim
that `.md` content is read verbatim by the dispatcher. -/
theorem C5_counterexample :
    Backend.document_analyze ⟨""⟩ envOk true "notes.md" =
      ((400, .error "Invalid file type"), []) := by
  decide

/-- C5 (amended): a `.txt` upload is read in full and its content passed
verbatim into the analysis prompt, with no OCR, storage or Textract call;
`.md` and `.xyz` uploads are rejected by the extension gate as
`Invalid file type` (HTTP 400) with no effect at all; the `unsupported`
error naming the supported formats is returned (status 200) only for
allowed extensions without a dispatch branch, such as `.gif`. -/
theorem C5_document_dispatch :
    (∀ (cfg : Backend.DocConfig) (env : Backend.DocEnv) (filename content : String),
        Backend.dispatchExt filename = ".txt" →
        Backend.allowed_file filename = true →
        env.readFile filename = .ok content →
        Backend.document_analyze cfg env true filename =
          ((200, env.llama (Backend.docPrompt ++ content) "You are an expert document analyzer."),
           [.fileSave filename, .fileRead filename,
            .llamaCall (Backend.docPrompt ++ content) "You are an expert document analyzer.",
            .logSearch, .fileDelete filename]))
    ∧ (∀ (cfg : Backend.DocConfig) (env : Backend.DocEnv) (filename : String),
        Backend.fileExtension filename = "md" →
        Backend.document_analyze cfg env true filename = ((400, .error "Invalid file type"), []))
    ∧ (∀ (cfg : Backend.DocConfig) (env : Backend.DocEnv) (filename : String),
        Backend.fileExtension filename = "xyz" →
        Backend.document_analyze cfg env true filename = ((400, .error "Invalid file type"), []))
    ∧ (∀ (cfg : Backend.DocConfig) (env : Backend.DocEnv) (filename : String),
        Backend.dispatchExt filename = ".gif" →
        Backend.allowed_file filename = true →
        Backend.document_analyze cfg env true filename =
          ((200, .error Backend.unsupportedMsg),
           [.fileSave filename, .logSearch, .fileDelete filename])) := by
  refine ⟨?_, ?_, ?_, ?_⟩
  · intro cfg env filename content hext hal hread
    have hne := dispatchExt_ne_empty hext (by decide)
    rw [docAnalyze_allowed cfg env filename hne hal, hext,
      tryBlock_txt cfg env filename content hread]
    rfl
  · intro cfg env filename hext
    have hne := fileExtension_ne_empty hext (by decide)
    have hal : Backend.allowed_file filename = false := by
      simp only [Backend.allowed_file, hext,
        show Backend.ALLOWED_EXTENSIONS.contains "md" = false from by decide, Bool.and_false]
    exact docAnalyze_reject cfg env filename hne hal
  · intro cfg env filename hext
    have hne := fileExtension_ne_empty hext (by decide)
    have hal : Backend.allowed_file filename = false := by
      simp only [Backend.allowed_file, hext,
        show Backend.ALLOWED_EXTENSIONS.contains "xyz" = false from by decide, Bool.and_false]
    exact docAnalyze_reject cfg env filename hne hal
  · intro cfg env filename hext hal
    have hne := dispatchExt_ne_empty hext (by decide)
    rw [docAnalyze_allowed cfg env filename hne hal, hext, tryBlock_gif cfg env filename]
    rfl

/-- Witness for C5 on concrete uploads: `notes.txt` with content `hello` is
read and passed verbatim to the model; `anim.gif` gets the unsupported
error. -/
theorem C5_document_dispatch_witness :
    Backend.document_analyze ⟨""⟩ envOk true "notes.txt" =
      ((200, envOk.llama (Backend.docPrompt ++ "hello") "You are an expert document analyzer."),
       [.fileSave "notes.txt", .fileRead "notes.txt",
        .llamaCall (Backend.docPrompt ++ "hello") "You are an expert document analyzer.",
        .logSearch, .fileDelete "notes.txt"]) ∧
    Backend.document_analyze ⟨""⟩ envOk true "anim.gif" =
      ((200, .error Backend.unsupportedMsg),
       [.fileSave "anim.gif", .logSearch, .fileDelete "anim.gif"]) :=
  ⟨C5_document_dispatch.1 ⟨""⟩ envOk "notes.txt" "hello" (by decide) (by decide) rfl,
   C5_document_dispatch.2.2.2 ⟨""⟩ envOk "anim.gif" (by decide) (by decide)⟩

/-! ## C6: upload cleanup -/

/-- C6 counterexample: a PDF upload with a configured bucket whose S3 upload
raises reaches the handler's `except` clause, which returns 500 without
deleting the saved temporary file — the saved file is not cleaned up on this
failure path. -/
theorem C6_counterexample :
    Backend.Effect.fileSave "doc.pdf" ∈
      (Backend.document_analyze ⟨"bkt"⟩ envS3fail true "doc.pdf").2 ∧
    Backend.Effect.fileDelete "doc.pdf" ∉
      (Backend.document_analyze ⟨"bkt"⟩ envS3fail true "doc.pdf").2 := by
  decide

/-- C6 (amended): on every `document_analyze` request that does not end in
the top-level `except` clause (status 500), a saved upload is deleted before
the handler returns — in particular on all in-band error paths; and
`analyze_image`, whose externals are caught internally, always deletes what
it saved.  Only an exception escaping to `except` (status 500) skips the
cleanup. -/
theorem C6_upload_cleanup (cfg : Backend.DocConfig) (env : Backend.DocEnv) (hasFile : Bool)
    (filename : String) :
    ((Backend.document_analyze cfg env hasFile filename).1.1 ≠ 500 →
      Backend.Effect.fileSave filename ∈ (Backend.document_analyze cfg env hasFile filename).2 →
      Backend.Effect.fileDelete filename ∈ (Backend.document_analyze cfg env hasFile filename).2)
    ∧ (Backend.Effect.fileSave filename ∈ (Backend.analyze_image env hasFile filename).2 →
      Backend.Effect.fileDelete filename ∈ (Backend.analyze_image env hasFile filename).2) := by
  constructor
  · cases hasFile with
    | false => intro _ hsave; simp [Backend.document_analyze] at hsave
    | true =>
      by_cases hb : (filename == "") = true
      · intro _ hsave
        simp [Backend.document_analyze, hb] at hsave
      · have hb2 : (filename == "") = false := by simpa using hb
        by_cases hal : Backend.allowed_file filename = true
        · rw [docAnalyze_allowed cfg env filename hb2 hal]
          rcases htb : Backend.tryBlock cfg env filename (Backend.dispatchExt filename)
            with ⟨effs, res⟩
          cases res with
          | ok r => intro _ _; simp
          | error e => intro h500; exact absurd rfl h500
        · have hal2 : Backend.allowed_file filename = false := by simpa using hal
          intro _ hsave
          rw [docAnalyze_reject cfg env filename hb2 hal2] at hsave
          simp at hsave
  · cases hasFile with
    | false => intro hsave; simp [Backend.analyze_image] at hsave
    | true =>
      by_cases hb : (filename == "") = true
      · intro hsave
        simp [Backend.analyze_image, hb] at hsave
      · have hb2 : (filename == "") = false := by simpa using hb
        by_cases hal : Backend.allowed_file filename = true
        · intro _
          simp [Backend.analyze_image, hb2, hal]
        · have hal2 : Backend.allowed_file filename = false := by simpa using hal
          intro hsave
          simp [Backend.analyze_image, hb2, hal2] at hsave

/-- Witness for C6 on a concrete in-band error path: the PDF-without-bucket
request is saved and deleted. -/
theorem C6_upload_cleanup_witness :
    Backend.Effect.fileDelete "doc.pdf" ∈
      (Backend.document_analyze ⟨""⟩ envOk true "doc.pdf").2 :=
  (C6_upload_cleanup ⟨""⟩ envOk true "doc.pdf").1 (by decide) (by decide)

/-! ## C7: PDF without a configured bucket -/

/-- C7: submitting a PDF while `TEXTRACT_S3_BUCKET` is unset returns the
specific configuration-remediation error, and the trace contains no S3
upload and no Textract job submission. -/
theorem C7_pdf_requires_bucket (cfg : Backend.DocConfig) (env : Backend.DocEnv)
    (filename : String)
    (hext : Backend.dispatchExt filename = ".pdf")
    (hal : Backend.allowed_file filename = true)
    (hb : cfg.textractS3Bucket = "") :
    Backend.document_analyze cfg env true filename =
      ((200, .error Backend.pdfBucketMsg),
       [.fileSave filename, .logSearch, .fileDelete filename]) ∧
    Backend.Effect.s3Upload filename ∉ (Backend.document_analyze cfg env true filename).2 ∧
    Backend.Effect.textractStart ∉ (Backend.document_analyze cfg env true filename).2 := by
  have hne := dispatchExt_ne_empty hext (by decide)
  have h1 : Backend.document_analyze cfg env true filename =
      ((200, .error Backend.pdfBucketMsg),
       [.fileSave filename, .logSearch, .fileDelete filename]) := by
    rw [docAnalyze_allowed cfg env filename hne hal, hext,
      tryBlock_pdf_no_bucket cfg env filename hb]
    rfl
  refine ⟨h1, ?_, ?_⟩ <;> rw [h1] <;> simp

/-- Witness for C7 at the concrete upload `doc.pdf` with an empty bucket
setting. -/
theorem C7_pdf_requires_bucket_witness :
    Backend.document_analyze ⟨""⟩ envOk true "doc.pdf" =
      ((200, .error Backend.pdfBucketMsg),
       [.fileSave "doc.pdf", .logSearch, .fileDelete "doc.pdf"]) ∧
    Backend.Effect.s3Upload "doc.pdf" ∉ (Backend.document_analyze ⟨""⟩ envOk true "doc.pdf").2 ∧
    Backend.Effect.textractStart ∉ (Backend.document_analyze ⟨""⟩ envOk true "doc.pdf").2 :=
  C7_pdf_requires_bucket ⟨""⟩ envOk "doc.pdf" (by decide) (by decide) (by decide)

/-! ## C8: error reporting channel -/

/-- C8 counterexample: the unsupported-type failure for an allowed `.gif`
upload is returned as `{error, ...}` with HTTP 200, not 500. -/
theorem C8_counterexample :
    (Backend.document_analyze ⟨""⟩ envOk true "anim.gif").1 =
      (200, .error Backend.unsupportedMsg) ∧
    (Backend.document_analyze ⟨""⟩ envOk true "anim.gif").1.1 ≠ 500 := by
  decide

/-- C8 (amended): only exceptions that escape the dispatch (provider calls
raising on the PDF path, a failing file read) are caught by the top-level
`except` and returned as `{error}` with HTTP 500; failure modes produced as
in-band error results — unsupported type, missing conversion tool, missing
bucket, provider errors already caught by the invocation adapter — are
returned as `{error}` with HTTP 200. -/
theorem C8_error_channels (cfg : Backend.DocConfig) (env : Backend.DocEnv) (filename : String)
    (hal : Backend.allowed_file filename = true) (hne : (filename == "") = false) :
    (∀ effs e,
        Backend.tryBlock cfg env filename (Backend.dispatchExt filename) = (effs, .error e) →
        (Backend.document_analyze cfg env true filename).1 =
          (500, .error ("Error processing document: " ++ e)))
    ∧ (∀ effs r,
        Backend.tryBlock cfg env filename (Backend.dispatchExt filename) = (effs, .ok r) →
        (Backend.document_analyze cfg env true filename).1 = (200, r)) := by
  constructor
  · intro effs e ht
    rw [docAnalyze_allowed cfg env filename hne hal, ht]
  · intro effs r ht
    rw [docAnalyze_allowed cfg env filename hne hal, ht]

/-- Witness for C8: a `.txt` upload whose file read raises is reported as a
500 `{error}`. -/
theorem C8_error_channels_witness :
    (Backend.document_analyze ⟨""⟩ envReadFail true "a.txt").1 =
      (500, .error ("Error processing document: " ++ "boom")) :=
  (C8_error_channels ⟨""⟩ envReadFail "a.txt" (by decide) (by decide)).1
    [Backend.Effect.fileRead "a.txt"] "boom" rfl

/-! ## C1: admin self-protection -/

/-- C1: an admin targeting their own user id through `block_user`,
`delete_user`, `remove_admin`, or through `update_user` with a payload
setting `is_active` or `is_admin` to false, receives a 400-class status and
the `users` table is returned unchanged. -/
theorem C1_admin_self_protection (users : List Backend.User) (a : Nat) (b : Bool)
    (p : Backend.UpdatePayload)
    (hp : p.isActive = some false ∨ p.isAdmin = some false) :
    (Backend.is4xx (Backend.block_user users a a b).1 ∧ (Backend.block_user users a a b).2 = users)
    ∧ (Backend.is4xx (Backend.delete_user users a a).1 ∧ (Backend.delete_user users a a).2 = users)
    ∧ (Backend.is4xx (Backend.remove_admin users a a).1 ∧ (Backend.remove_admin users a a).2 = users)
    ∧ (Backend.is4xx (Backend.update_user users a a p).1 ∧ (Backend.update_user users a a p).2 = users) := by
  refine ⟨?_, ?_, ?_, ?_⟩
  · unfold Backend.block_user
    cases Backend.findUser users a with
    | none => simp [Backend.is4xx]
    | some u => simp [Backend.is4xx]
  · unfold Backend.delete_user
    cases Backend.findUser users a with
    | none => simp [Backend.is4xx]
    | some u => simp [Backend.is4xx]
  · unfold Backend.remove_admin
    cases Backend.findUser users a with
    | none => simp [Backend.is4xx]
    | some u => simp [Backend.is4xx]
  · unfold Backend.update_user
    cases Backend.findUser users a with
    | none => simp [Backend.is4xx]
    | some u0 =>
      cases h1 : Backend.usernameStep users a u0.username u0 p.username with
      | error s => simp [h1, Backend.is4xx]
      | ok d1 =>
        cases h2 : Backend.emailStep users a u0.email d1 p.email with
        | error s => simp [h1, h2, Backend.is4xx]
        | ok d2 =>
          rcases hp with hpa | hpd
          · simp [h1, h2, hpa, Backend.activeStep, Backend.is4xx]
          · cases h3 : Backend.activeStep a a d2 p.isActive with
            | error s => simp [h1, h2, h3, Backend.is4xx]
            | ok d3 =>
              simp [h1, h2, h3, hpd, Backend.adminStep, Backend.is4xx]

/-- Witness for C1 at a concrete table: acting admin with id 1 blocking,
deleting, demoting, or deactivating themself leaves the table unchanged with
a 4xx status. -/
theorem C1_admin_self_protection_witness :
    (Backend.is4xx (Backend.block_user [⟨1, "root", "r@x.io", "h", none, true, true⟩] 1 1 true).1
      ∧ (Backend.block_user [⟨1, "root", "r@x.io", "h", none, true, true⟩] 1 1 true).2 =
          [⟨1, "root", "r@x.io", "h", none, true, true⟩])
    ∧ (Backend.is4xx (Backend.delete_user [⟨1, "root", "r@x.io", "h", none, true, true⟩] 1 1).1
      ∧ (Backend.delete_user [⟨1, "root", "r@x.io", "h", none, true, true⟩] 1 1).2 =
          [⟨1, "root", "r@x.io", "h", none, true, true⟩])
    ∧ (Backend.is4xx (Backend.remove_admin [⟨1, "root", "r@x.io", "h", none, true, true⟩] 1 1).1
      ∧ (Backend.remove_admin [⟨1, "root", "r@x.io", "h", none, true, true⟩] 1 1).2 =
          [⟨1, "root", "r@x.io", "h", none, true, true⟩])
    ∧ (Backend.is4xx (Backend.update_user [⟨1, "root", "r@x.io", "h", none, true, true⟩] 1 1
          ⟨none, none, some false, none⟩).1
      ∧ (Backend.update_user [⟨1, "root", "r@x.io", "h", none, true, true⟩] 1 1
          ⟨none, none, some false, none⟩).2 =
          [⟨1, "root", "r@x.io", "h", none, true, true⟩]) :=
  C1_admin_self_protection [⟨1, "root", "r@x.io", "h", none, true, true⟩] 1 true
    ⟨none, none, some false, none⟩ (Or.inl rfl)

/-! ## C3: password validation -/

/-- C3: `validate_password` accepts exactly the strings of length ≥ 8 that
contain a letter and a digit; each violation is rejected with its specific
message (length checked first, then letter, then digit), and on the concrete
examples "abc12345" is accepted while "abcdefgh" and "1234567" are rejected
with the digit and length messages respectively. -/
theorem C3_validate_password :
    (∀ p : String,
      (Backend.validate_password p).fst = true ↔
        (8 ≤ p.length ∧ Backend.containsLetter p = true ∧ Backend.containsDigit p = true))
    ∧ Backend.validate_password "abc12345" = (true, "Password is valid")
    ∧ Backend.validate_password "abcdefgh" = (false, "Password must contain at least one number")
    ∧ Backend.validate_password "1234567" = (false, "Password must be at least 8 characters long")
    ∧ Backend.validate_password "12345678" = (false, "Password must contain at least one letter") := by
  refine ⟨fun p => ?_, by decide, by decide, by decide, by decide⟩
  unfold Backend.validate_password
  split
  next h =>
    refine iff_of_false (by simp) ?_
    rintro ⟨h8, -, -⟩
    omega
  next h =>
    split
    next h2 =>
      refine iff_of_false (by simp) ?_
      rintro ⟨-, hl, -⟩
      simp [hl] at h2
    next h2 =>
      split
      next h3 =>
        refine iff_of_false (by simp) ?_
        rintro ⟨-, -, hd⟩
        simp [hd] at h3
      next h3 =>
        exact iff_of_true rfl ⟨by omega, by simpa using h2, by simpa using h3⟩
